import Mathlib

/-!
Shallow embedding of the `lei` crate (LEI parsing/validation, ISO 17442).

Source files embedded: `src/lib.rs` and `src/digits.rs`.  Rust strings are
modelled as lists of bytes (`List Nat`, each < 256 for genuine UTF-8 input);
string inputs to the loose parser are modelled as lists of Unicode code
points (`List Nat`) together with an explicit UTF-8 encoding function.
Rust panics are modelled as `Option.none`; fallible functions returning
`Result<T, LEIError>` become `Option (Except LEIError T)` so that the panic
branches stay visible.
-/

namespace Lei

/-- Rust `u8::is_ascii_digit`. -/
def isAsciiDigit (b : Nat) : Bool := decide (48 ≤ b) && decide (b ≤ 57)

/-- Rust `b.is_ascii_alphabetic() && b.is_ascii_uppercase()`. -/
def isAsciiUppercaseLetter (b : Nat) : Bool := decide (65 ≤ b) && decide (b ≤ 90)

/-- The byte class accepted by the LOU ID and Entity ID validators:
ASCII decimal digit or ASCII uppercase letter. -/
def isUpperAlphanum (b : Nat) : Bool := isAsciiDigit b || isAsciiUppercaseLetter b

/-- `src/digits.rs`: the value a byte contributes in `DigitsIterator::next`
(`b'0'..=b'9'` ↦ 0–9, `b'A'..=b'Z'` ↦ 10–35); `none` models the panic on any
other byte. -/
def digitValue (b : Nat) : Option Nat :=
  if isAsciiDigit b then some (b - 48)
  else if isAsciiUppercaseLetter b then some (b - 65 + 10)
  else none

/-- `src/digits.rs`: the full output stream of `DigitsIterator::new(s)`,
collected into a list of emitted ASCII digit characters.  A value `< 10`
is emitted as one pass-through digit character; a value in 10–35 is emitted
as its tens digit character followed by its units digit character.  `none`
models the panic raised on a byte outside `0-9A-Z`. -/
def expandDigits : List Nat → Option (List Nat)
  | [] => some []
  | b :: rest =>
    match digitValue b with
    | none => none
    | some d =>
      match expandDigits rest with
      | none => none
      | some tail =>
        if d < 10 then some ((d + 48) :: tail)
        else some ((d / 10 + 48) :: (d % 10 + 48) :: tail)

/-- Modelled from the spec: the external ISO/IEC 7064 MOD 97-10 checksum
engine (`iso_iec_7064` crate, not part of this repository).  Per the spec it
exposes `checksum(sequence of decimal-digit characters) -> Option<remainder
in 0..97>`, returning none only on malformed streams (an empty stream or a
character outside the decimal digits).  On a well-formed stream with digits
forming the number N it returns the MOD 97-10 check value: the unique v in
[0, 96] with (N * 100 + v) ≡ 1 (mod 97). -/
def checksum_mod_97_10 (ds : List Nat) : Option Nat :=
  if ds.isEmpty then none
  else if ds.all isAsciiDigit then
    some ((98 - ((ds.foldl (fun r d => (r * 10 + (d - 48)) % 97) 0) * 100) % 97) % 97)
  else none

/-- `src/lib.rs` `compute_check_digits`: drive the payload through the digit
expansion into the checksum engine and format the result as two ASCII digit
bytes, tens digit first.  `none` models the two panic branches (a bad byte
inside `DigitsIterator`, or the engine returning no checksum). -/
def compute_check_digits (s : List Nat) : Option (List Nat) :=
  match expandDigits s with
  | none => none
  | some ds =>
    match checksum_mod_97_10 ds with
    | none => none
    | some sum => some [48 + sum / 10, 48 + sum % 10]

/-- `src/error.rs` `LEIError`.  The fixed-size byte arrays of the Rust enum
are modelled as byte lists. -/
inductive LEIError where
  | InvalidLength (was : Nat)
  | InvalidPayloadLength (was : Nat)
  | InvalidLouIdLength (was : Nat)
  | InvalidEntityIdLength (was : Nat)
  | InvalidLouId (was : List Nat)
  | InvalidEntityId (was : List Nat)
  | InvalidCheckDigits (was : List Nat)
  | IncorrectCheckDigits (was : List Nat) (expected : List Nat)
deriving DecidableEq, Repr

/-- `src/lib.rs` `LEI`: the 20-byte validated value.  As in the Rust source
the type itself carries no invariant; well-formedness is proved about every
value the constructors return. -/
structure LEI where
  bytes : List Nat
deriving DecidableEq, Repr

/-- `impl fmt::Display for LEI`: renders the 20 inner bytes unchanged. -/
def LEI.to_string (x : LEI) : List Nat := x.bytes

/-- `src/lib.rs` `validate_lou_id_format`: `none` models the panic when the
slice is not 4 bytes; otherwise every byte must be an ASCII digit or
uppercase letter, else `InvalidLouId` carrying a copy of the slice. -/
def validate_lou_id_format (li : List Nat) : Option (Except LEIError Unit) :=
  if li.length ≠ 4 then none
  else if li.all isUpperAlphanum then some (Except.ok ())
  else some (Except.error (LEIError.InvalidLouId li))

/-- `src/lib.rs` `validate_entity_id_format` (14 bytes wide). -/
def validate_entity_id_format (ei : List Nat) : Option (Except LEIError Unit) :=
  if ei.length ≠ 14 then none
  else if ei.all isUpperAlphanum then some (Except.ok ())
  else some (Except.error (LEIError.InvalidEntityId ei))

/-- `src/lib.rs` `validate_check_digits_format` (2 bytes wide, decimal
digits only). -/
def validate_check_digits_format (cd : List Nat) : Option (Except LEIError Unit) :=
  if cd.length ≠ 2 then none
  else if cd.all isAsciiDigit then some (Except.ok ())
  else some (Except.error (LEIError.InvalidCheckDigits cd))

/-- `src/lib.rs` `parse`: strict parse on the UTF-8 bytes of the input.
Checks, in order: byte length 20 (`InvalidLength`), LOU ID format on bytes
[0,4), Entity ID format on bytes [4,18), Check Digits format on bytes
[18,20), then the supplied check digits against the ones computed over
bytes [0,18); on success the 20 bytes are copied into an `LEI`. -/
def parse (v : List Nat) : Option (Except LEIError LEI) :=
  if v.length ≠ 20 then some (Except.error (LEIError.InvalidLength v.length))
  else
    match validate_lou_id_format (v.take 4) with
    | none => none
    | some (Except.error e) => some (Except.error e)
    | some (Except.ok _) =>
      match validate_entity_id_format ((v.drop 4).take 14) with
      | none => none
      | some (Except.error e) => some (Except.error e)
      | some (Except.ok _) =>
        match validate_check_digits_format (v.drop 18) with
        | none => none
        | some (Except.error e) => some (Except.error e)
        | some (Except.ok _) =>
          match compute_check_digits (v.take 18) with
          | none => none
          | some ccd =>
            if v.drop 18 ≠ ccd then
              some (Except.error (LEIError.IncorrectCheckDigits (v.drop 18) ccd))
            else some (Except.ok ⟨v⟩)

/-- Rust `char::is_whitespace` (the Unicode White_Space code points), used
by `str::trim`. -/
def isRustWhitespace (c : Nat) : Bool :=
  (c == 9) || (c == 10) || (c == 11) || (c == 12) || (c == 13) || (c == 32) ||
  (c == 0x85) || (c == 0xA0) || (c == 0x1680) ||
  (decide (0x2000 ≤ c) && decide (c ≤ 0x200A)) ||
  (c == 0x2028) || (c == 0x2029) || (c == 0x202F) || (c == 0x205F) || (c == 0x3000)

/-- Rust `char::to_ascii_uppercase` on a code point: ASCII `a-z` map to
`A-Z`, everything else is unchanged. -/
def toAsciiUpperChar (c : Nat) : Nat :=
  if 97 ≤ c ∧ c ≤ 122 then c - 32 else c

/-- Rust `str::trim`: drop Unicode whitespace characters from both ends. -/
def trimChars (s : List Nat) : List Nat :=
  ((s.dropWhile isRustWhitespace).reverse.dropWhile isRustWhitespace).reverse

/-- UTF-8 encoding of one Unicode code point, as Rust strings store it. -/
def utf8EncodeChar (c : Nat) : List Nat :=
  if c < 0x80 then [c]
  else if c < 0x800 then [0xC0 + c / 64, 0x80 + c % 64]
  else if c < 0x10000 then [0xE0 + c / 4096, 0x80 + c / 64 % 64, 0x80 + c % 64]
  else [0xF0 + c / 262144, 0x80 + c / 4096 % 64, 0x80 + c / 64 % 64, 0x80 + c % 64]

/-- UTF-8 byte encoding of a sequence of code points. -/
def encodeUtf8 (s : List Nat) : List Nat := s.flatMap utf8EncodeChar

/-- `src/lib.rs` `parse_loose`: ASCII-uppercase the whole input, trim
leading/trailing whitespace, then delegate to `parse`.  The input is a list
of Unicode code points; `parse` receives its UTF-8 bytes. -/
def parse_loose (s : List Nat) : Option (Except LEIError LEI) :=
  parse (encodeUtf8 (trimChars (s.map toAsciiUpperChar)))

/-- `src/lib.rs` `build_from_payload`: check the payload byte length is 18
(`InvalidPayloadLength`), validate LOU ID and Entity ID formats, then
append the computed check digits. -/
def build_from_payload (p : List Nat) : Option (Except LEIError LEI) :=
  if p.length ≠ 18 then some (Except.error (LEIError.InvalidPayloadLength p.length))
  else
    match validate_lou_id_format (p.take 4) with
    | none => none
    | some (Except.error e) => some (Except.error e)
    | some (Except.ok _) =>
      match validate_entity_id_format ((p.drop 4).take 14) with
      | none => none
      | some (Except.error e) => some (Except.error e)
      | some (Except.ok _) =>
        match compute_check_digits p with
        | none => none
        | some cd => some (Except.ok ⟨p ++ cd⟩)

/-- `src/lib.rs` `build_from_parts`: check and validate the LOU ID (length
then format), then the Entity ID (length then format), then append the
check digits computed over their concatenation. -/
def build_from_parts (lou entity : List Nat) : Option (Except LEIError LEI) :=
  if lou.length ≠ 4 then some (Except.error (LEIError.InvalidLouIdLength lou.length))
  else
    match validate_lou_id_format lou with
    | none => none
    | some (Except.error e) => some (Except.error e)
    | some (Except.ok _) =>
      if entity.length ≠ 14 then
        some (Except.error (LEIError.InvalidEntityIdLength entity.length))
      else
        match validate_entity_id_format entity with
        | none => none
        | some (Except.error e) => some (Except.error e)
        | some (Except.ok _) =>
          match compute_check_digits (lou ++ entity) with
          | none => none
          | some cd => some (Except.ok ⟨lou ++ entity ++ cd⟩)

/-- `src/lib.rs` `validate`: same checks as `parse`, returning a boolean
(`none` still models the internal panic branches). -/
def validate (v : List Nat) : Option Bool :=
  if v.length ≠ 20 then some false
  else
    match validate_lou_id_format (v.take 4) with
    | none => none
    | some (Except.error _) => some false
    | some (Except.ok _) =>
      match validate_entity_id_format ((v.drop 4).take 14) with
      | none => none
      | some (Except.error _) => some false
      | some (Except.ok _) =>
        match validate_check_digits_format (v.drop 18) with
        | none => none
        | some (Except.error _) => some false
        | some (Except.ok _) =>
          match compute_check_digits (v.take 18) with
          | none => none
          | some ccd => some (decide (v.drop 18 = ccd))

/-- The per-byte output of the digit expansion, as the spec describes it:
a digit byte is passed through as one output character; a letter byte with
value `b - 65 + 10` in 10–35 becomes its tens digit character followed by
its units digit character. -/
def expandByteSpec (b : Nat) : List Nat :=
  if isAsciiDigit b then [b]
  else [(b - 65 + 10) / 10 + 48, (b - 65 + 10) % 10 + 48]

/-- Rust `Result::is_ok` on the modelled `Result<LEI, LEIError>`. -/
def resultIsOk (r : Except LEIError LEI) : Bool :=
  match r with
  | Except.ok _ => true
  | Except.error _ => false

/-- The data-model invariant of a validated LEI value: exactly 20 bytes,
every byte an ASCII digit or uppercase letter, bytes 18–19 ASCII decimal
digits, and bytes 18–19 equal to the check digits computed over bytes
0–17. -/
def wellFormedLEI (x : LEI) : Prop :=
  x.bytes.length = 20 ∧
  x.bytes.all isUpperAlphanum = true ∧
  (x.bytes.drop 18).all isAsciiDigit = true ∧
  compute_check_digits (x.bytes.take 18) = some (x.bytes.drop 18)

/-- Nats of the GLEIF sample LEI `635400B4JJBON4TCHF02` (valid). -/
def sampleLEI : List Nat :=
  (['6','3','5','4','0','0','B','4','J','J','B','O','N','4','T','C','H','F','0','2']).map Char.toNat

/-- Nats of `635400B4JJBON4TCHF01` (format-valid but wrong check digits). -/
def sampleBadCd : List Nat :=
  (['6','3','5','4','0','0','B','4','J','J','B','O','N','4','T','C','H','F','0','1']).map Char.toNat

/-- Nats of the 18-byte payload `635400B4JJBON4TCHF`. -/
def samplePayload : List Nat :=
  (['6','3','5','4','0','0','B','4','J','J','B','O','N','4','T','C','H','F']).map Char.toNat

/-- Nats of the LOU ID `6354`. -/
def sampleLou : List Nat := (['6','3','5','4']).map Char.toNat

/-- Nats of the Entity ID `00B4JJBON4TCHF`. -/
def sampleEntity : List Nat :=
  (['0','0','B','4','J','J','B','O','N','4','T','C','H','F']).map Char.toNat

/-- Nats of the 8-byte string `TOOSHORT`. -/
def sampleShort : List Nat := (['T','O','O','S','H','O','R','T']).map Char.toNat

/-- Code points of the loose-parser example input, with surrounding spaces
and lowercase letters: `"  yz83gd8l7gg84979j516  "`. -/
def sampleLoose : List Nat :=
  ([' ',' ','y','z','8','3','g','d','8','l','7','g','g','8','4','9','7','9','j','5','1','6',' ',' ']).map Char.toNat

/-- Nats of the strict counterpart `YZ83GD8L7GG84979J516`. -/
def sampleStrict : List Nat :=
  (['Y','Z','8','3','G','D','8','L','7','G','G','8','4','9','7','9','J','5','1','6']).map Char.toNat

/-- Code points of a 20-character input whose last character is non-ASCII
(`é`, U+00E9): 19 `A`s followed by `é`. -/
def sampleUnicode : List Nat := List.replicate 19 65 ++ [233]

instance : DecidableEq (Except LEIError LEI) := fun a b =>
  match a, b with
  | Except.ok x, Except.ok y =>
    if h : x = y then isTrue (by rw [h]) else isFalse (by intro hc; cases hc; exact h rfl)
  | Except.error x, Except.error y =>
    if h : x = y then isTrue (by rw [h]) else isFalse (by intro hc; cases hc; exact h rfl)
  | Except.ok _, Except.error _ => isFalse (by intro hc; cases hc)
  | Except.error _, Except.ok _ => isFalse (by intro hc; cases hc)

instance (x : LEI) : Decidable (wellFormedLEI x) := by
  unfold wellFormedLEI
  infer_instance

lemma isAsciiDigit_iff {b : Nat} : isAsciiDigit b = true ↔ 48 ≤ b ∧ b ≤ 57 := by
  simp [isAsciiDigit]

lemma isAsciiUpperLetter_iff {b : Nat} :
    isAsciiUppercaseLetter b = true ↔ 65 ≤ b ∧ b ≤ 90 := by
  simp [isAsciiUppercaseLetter]

lemma isAsciiDigit_false_iff {b : Nat} :
    isAsciiDigit b = false ↔ ¬ (48 ≤ b ∧ b ≤ 57) := by
  rw [Bool.eq_false_iff, ne_eq, isAsciiDigit_iff]

lemma isUpperAlphanum_iff {b : Nat} :
    isUpperAlphanum b = true ↔ (48 ≤ b ∧ b ≤ 57) ∨ (65 ≤ b ∧ b ≤ 90) := by
  simp [isUpperAlphanum, isAsciiDigit, isAsciiUppercaseLetter]

lemma isUpperAlphanum_of_digit {b : Nat} (h : isAsciiDigit b = true) :
    isUpperAlphanum b = true := by
  simp [isUpperAlphanum, h]

lemma expandByteSpec_ne_nil (b : Nat) : expandByteSpec b ≠ [] := by
  unfold expandByteSpec
  split <;> simp

lemma expandByteSpec_all_digits {b : Nat} (h : isUpperAlphanum b = true) :
    (expandByteSpec b).all isAsciiDigit = true := by
  simp only [isUpperAlphanum, Bool.or_eq_true] at h
  unfold expandByteSpec
  rcases h with hd | hu
  · simp [hd]
  · rw [isAsciiUpperLetter_iff] at hu
    have hd : isAsciiDigit b = false := by
      rw [isAsciiDigit_false_iff]
      omega
    simp only [hd, Bool.false_eq_true, if_false, List.all_cons, List.all_nil,
      Bool.and_true, Bool.and_eq_true, isAsciiDigit_iff]
    omega

lemma expandDigits_eq {s : List Nat} (h : s.all isUpperAlphanum = true) :
    expandDigits s = some (s.flatMap expandByteSpec) := by
  induction s with
  | nil => simp [expandDigits]
  | cons b rest ih =>
    simp only [List.all_cons, Bool.and_eq_true] at h
    obtain ⟨hb, hrest⟩ := h
    have hr := ih hrest
    simp only [isUpperAlphanum, Bool.or_eq_true] at hb
    rcases hb with hd | hu
    · have hdv : digitValue b = some (b - 48) := by simp [digitValue, hd]
      have hd' := hd
      rw [isAsciiDigit_iff] at hd
      have h10 : b - 48 < 10 := by omega
      have hbb : b - 48 + 48 = b := by omega
      simp [expandDigits, hdv, hr, h10, hbb, List.flatMap_cons, expandByteSpec, hd']
    · have hu' := hu
      rw [isAsciiUpperLetter_iff] at hu
      have hdfalse : isAsciiDigit b = false := by
        rw [isAsciiDigit_false_iff]
        omega
      have hdv : digitValue b = some (b - 65 + 10) := by
        simp [digitValue, hdfalse, hu']
      have h10 : ¬ (b - 65 + 10 < 10) := by omega
      simp [expandDigits, hdv, hr, h10, List.flatMap_cons, expandByteSpec, hdfalse]

lemma checksum_eq {ds : List Nat} (hie : ds.isEmpty = false)
    (hall : ds.all isAsciiDigit = true) :
    checksum_mod_97_10 ds =
      some ((98 - ((ds.foldl (fun r d => (r * 10 + (d - 48)) % 97) 0) * 100) % 97) % 97) := by
  simp [checksum_mod_97_10, hie, hall]

lemma checksum_le {ds : List Nat} {n : Nat} (h : checksum_mod_97_10 ds = some n) :
    n ≤ 96 := by
  unfold checksum_mod_97_10 at h
  split at h
  · exact absurd h (by simp)
  · split at h
    · have hn : (98 - ((ds.foldl (fun r d => (r * 10 + (d - 48)) % 97) 0) * 100) % 97) % 97 = n :=
        Option.some_inj.mp h
      have hlt : (98 - ((ds.foldl (fun r d => (r * 10 + (d - 48)) % 97) 0) * 100) % 97) % 97 < 97 :=
        Nat.mod_lt _ (by omega)
      omega
    · exact absurd h (by simp)

lemma checksum_some {ds : List Nat} (hne : ds ≠ []) (hall : ds.all isAsciiDigit = true) :
    ∃ n, checksum_mod_97_10 ds = some n := by
  have hie : ds.isEmpty = false := by
    cases ds with
    | nil => exact absurd rfl hne
    | cons a t => rfl
  exact ⟨_, checksum_eq hie hall⟩

lemma compute_some_inv {s cd : List Nat} (h : compute_check_digits s = some cd) :
    cd.length = 2 ∧ cd.all isAsciiDigit = true := by
  unfold compute_check_digits at h
  split at h
  · exact absurd h (by simp)
  · rename_i ds hds
    split at h
    · exact absurd h (by simp)
    · rename_i n hn
      have hle := checksum_le hn
      have hcd : [48 + n / 10, 48 + n % 10] = cd := Option.some_inj.mp h
      subst hcd
      refine ⟨rfl, ?_⟩
      simp only [List.all_cons, List.all_nil, Bool.and_true, Bool.and_eq_true,
        isAsciiDigit_iff]
      omega

lemma flatMap_expand_all_digits {s : List Nat} (hall : s.all isUpperAlphanum = true) :
    (s.flatMap expandByteSpec).all isAsciiDigit = true := by
  rw [List.all_eq_true]
  intro x hx
  rw [List.mem_flatMap] at hx
  obtain ⟨b, hb, hxb⟩ := hx
  rw [List.all_eq_true] at hall
  have := expandByteSpec_all_digits (hall b hb)
  rw [List.all_eq_true] at this
  exact this x hxb

lemma compute_some_of_valid {s : List Nat} (hne : s ≠ [])
    (hall : s.all isUpperAlphanum = true) :
    ∃ cd, compute_check_digits s = some cd := by
  have hexp := expandDigits_eq hall
  have hds_ne : s.flatMap expandByteSpec ≠ [] := by
    cases s with
    | nil => exact absurd rfl hne
    | cons b t =>
      simp only [List.flatMap_cons, ne_eq, List.append_eq_nil]
      exact fun hc => expandByteSpec_ne_nil b hc.1
  obtain ⟨n, hn⟩ := checksum_some hds_ne (flatMap_expand_all_digits hall)
  refine ⟨[48 + n / 10, 48 + n % 10], ?_⟩
  simp only [compute_check_digits, hexp, hn]

lemma list_split_parts (v : List Nat) :
    v.take 4 ++ ((v.drop 4).take 14 ++ v.drop 18) = v := by
  have h1 : (v.drop 4).drop 14 = v.drop 18 := by
    rw [List.drop_drop]
  rw [← h1, List.take_append_drop, List.take_append_drop]

lemma take18_eq (v : List Nat) : v.take 18 = v.take 4 ++ (v.drop 4).take 14 := by
  have h := List.take_add v 4 14
  simpa using h

lemma take18_all {v : List Nat} (hl : (v.take 4).all isUpperAlphanum = true)
    (he : ((v.drop 4).take 14).all isUpperAlphanum = true) :
    (v.take 18).all isUpperAlphanum = true := by
  rw [take18_eq, List.all_append, hl, he]
  rfl

lemma take18_ne_nil {v : List Nat} (h20 : v.length = 20) : v.take 18 ≠ [] := by
  have : (v.take 18).length = 18 := by
    rw [List.length_take]
    omega
  intro hc
  rw [hc] at this
  simp at this

lemma lou_format_ok {li : List Nat} (h : li.length = 4)
    (ha : li.all isUpperAlphanum = true) :
    validate_lou_id_format li = some (Except.ok ()) := by
  simp [validate_lou_id_format, h, ha]

lemma lou_format_err {li : List Nat} (h : li.length = 4)
    (ha : li.all isUpperAlphanum = false) :
    validate_lou_id_format li = some (Except.error (LEIError.InvalidLouId li)) := by
  simp [validate_lou_id_format, h, ha]

lemma entity_format_ok {ei : List Nat} (h : ei.length = 14)
    (ha : ei.all isUpperAlphanum = true) :
    validate_entity_id_format ei = some (Except.ok ()) := by
  simp [validate_entity_id_format, h, ha]

lemma entity_format_err {ei : List Nat} (h : ei.length = 14)
    (ha : ei.all isUpperAlphanum = false) :
    validate_entity_id_format ei = some (Except.error (LEIError.InvalidEntityId ei)) := by
  simp [validate_entity_id_format, h, ha]

lemma cd_format_ok {cd : List Nat} (h : cd.length = 2)
    (ha : cd.all isAsciiDigit = true) :
    validate_check_digits_format cd = some (Except.ok ()) := by
  simp [validate_check_digits_format, h, ha]

lemma cd_format_err {cd : List Nat} (h : cd.length = 2)
    (ha : cd.all isAsciiDigit = false) :
    validate_check_digits_format cd = some (Except.error (LEIError.InvalidCheckDigits cd)) := by
  simp [validate_check_digits_format, h, ha]

lemma length_take4 {v : List Nat} (h20 : v.length = 20) : (v.take 4).length = 4 := by
  rw [List.length_take]
  omega

lemma length_take14 {v : List Nat} (h20 : v.length = 20) :
    ((v.drop 4).take 14).length = 14 := by
  rw [List.length_take, List.length_drop]
  omega

lemma length_drop18 {v : List Nat} (h20 : v.length = 20) : (v.drop 18).length = 2 := by
  rw [List.length_drop]
  omega

lemma parse_length_ne {v : List Nat} (h : v.length ≠ 20) :
    parse v = some (Except.error (LEIError.InvalidLength v.length)) := by
  simp [parse, h]

lemma parse_lou_bad {v : List Nat} (h20 : v.length = 20)
    (hl : (v.take 4).all isUpperAlphanum = false) :
    parse v = some (Except.error (LEIError.InvalidLouId (v.take 4))) := by
  simp [parse, h20, lou_format_err (length_take4 h20) hl]

lemma parse_entity_bad {v : List Nat} (h20 : v.length = 20)
    (hl : (v.take 4).all isUpperAlphanum = true)
    (he : ((v.drop 4).take 14).all isUpperAlphanum = false) :
    parse v = some (Except.error (LEIError.InvalidEntityId ((v.drop 4).take 14))) := by
  simp [parse, h20, lou_format_ok (length_take4 h20) hl,
    entity_format_err (length_take14 h20) he]

lemma parse_cd_bad {v : List Nat} (h20 : v.length = 20)
    (hl : (v.take 4).all isUpperAlphanum = true)
    (he : ((v.drop 4).take 14).all isUpperAlphanum = true)
    (hc : (v.drop 18).all isAsciiDigit = false) :
    parse v = some (Except.error (LEIError.InvalidCheckDigits (v.drop 18))) := by
  simp [parse, h20, lou_format_ok (length_take4 h20) hl,
    entity_format_ok (length_take14 h20) he,
    cd_format_err (length_drop18 h20) hc]

lemma parse_mismatch {v ccd : List Nat} (h20 : v.length = 20)
    (hl : (v.take 4).all isUpperAlphanum = true)
    (he : ((v.drop 4).take 14).all isUpperAlphanum = true)
    (hc : (v.drop 18).all isAsciiDigit = true)
    (hcc : compute_check_digits (v.take 18) = some ccd)
    (hne : v.drop 18 ≠ ccd) :
    parse v = some (Except.error (LEIError.IncorrectCheckDigits (v.drop 18) ccd)) := by
  simp [parse, h20, lou_format_ok (length_take4 h20) hl,
    entity_format_ok (length_take14 h20) he,
    cd_format_ok (length_drop18 h20) hc, hcc, hne]

lemma parse_ok_of {v : List Nat} (h20 : v.length = 20)
    (hl : (v.take 4).all isUpperAlphanum = true)
    (he : ((v.drop 4).take 14).all isUpperAlphanum = true)
    (hc : (v.drop 18).all isAsciiDigit = true)
    (hcc : compute_check_digits (v.take 18) = some (v.drop 18)) :
    parse v = some (Except.ok ⟨v⟩) := by
  simp [parse, h20, lou_format_ok (length_take4 h20) hl,
    entity_format_ok (length_take14 h20) he,
    cd_format_ok (length_drop18 h20) hc, hcc]

lemma parse_ok_inv {v : List Nat} {lei : LEI} (h : parse v = some (Except.ok lei)) :
    v.length = 20 ∧ (v.take 4).all isUpperAlphanum = true ∧
    ((v.drop 4).take 14).all isUpperAlphanum = true ∧
    (v.drop 18).all isAsciiDigit = true ∧
    compute_check_digits (v.take 18) = some (v.drop 18) ∧ lei = ⟨v⟩ := by
  by_cases h20 : v.length = 20
  · cases hl : (v.take 4).all isUpperAlphanum with
    | false => rw [parse_lou_bad h20 hl] at h; exact absurd h (by simp)
    | true =>
      cases he : ((v.drop 4).take 14).all isUpperAlphanum with
      | false => rw [parse_entity_bad h20 hl he] at h; exact absurd h (by simp)
      | true =>
        cases hc : (v.drop 18).all isAsciiDigit with
        | false => rw [parse_cd_bad h20 hl he hc] at h; exact absurd h (by simp)
        | true =>
          obtain ⟨cd, hcd⟩ :=
            compute_some_of_valid (take18_ne_nil h20) (take18_all hl he)
          by_cases hm : v.drop 18 = cd
          · have hcd' : compute_check_digits (v.take 18) = some (v.drop 18) := by
              rw [hm]; exact hcd
            rw [parse_ok_of h20 hl he hc hcd'] at h
            have hlei : lei = ⟨v⟩ := by
              have := Option.some_inj.mp h
              cases this
              rfl
            exact ⟨h20, rfl, rfl, rfl, hcd', hlei⟩
          · rw [parse_mismatch h20 hl he hc hcd hm] at h
            exact absurd h (by simp)
  · rw [parse_length_ne h20] at h
    exact absurd h (by simp)

lemma parse_isSome (v : List Nat) : (parse v).isSome = true := by
  by_cases h20 : v.length = 20
  · cases hl : (v.take 4).all isUpperAlphanum with
    | false => rw [parse_lou_bad h20 hl]; rfl
    | true =>
      cases he : ((v.drop 4).take 14).all isUpperAlphanum with
      | false => rw [parse_entity_bad h20 hl he]; rfl
      | true =>
        cases hc : (v.drop 18).all isAsciiDigit with
        | false => rw [parse_cd_bad h20 hl he hc]; rfl
        | true =>
          obtain ⟨cd, hcd⟩ :=
            compute_some_of_valid (take18_ne_nil h20) (take18_all hl he)
          by_cases hm : v.drop 18 = cd
          · rw [parse_ok_of h20 hl he hc (by rw [hm]; exact hcd)]; rfl
          · rw [parse_mismatch h20 hl he hc hcd hm]; rfl
  · rw [parse_length_ne h20]; rfl

lemma validate_length_ne {v : List Nat} (h : v.length ≠ 20) :
    validate v = some false := by
  simp [validate, h]

lemma validate_lou_bad {v : List Nat} (h20 : v.length = 20)
    (hl : (v.take 4).all isUpperAlphanum = false) :
    validate v = some false := by
  simp [validate, h20, lou_format_err (length_take4 h20) hl]

lemma validate_entity_bad {v : List Nat} (h20 : v.length = 20)
    (hl : (v.take 4).all isUpperAlphanum = true)
    (he : ((v.drop 4).take 14).all isUpperAlphanum = false) :
    validate v = some false := by
  simp [validate, h20, lou_format_ok (length_take4 h20) hl,
    entity_format_err (length_take14 h20) he]

lemma validate_cd_bad {v : List Nat} (h20 : v.length = 20)
    (hl : (v.take 4).all isUpperAlphanum = true)
    (he : ((v.drop 4).take 14).all isUpperAlphanum = true)
    (hc : (v.drop 18).all isAsciiDigit = false) :
    validate v = some false := by
  simp [validate, h20, lou_format_ok (length_take4 h20) hl,
    entity_format_ok (length_take14 h20) he,
    cd_format_err (length_drop18 h20) hc]

lemma validate_checked {v ccd : List Nat} (h20 : v.length = 20)
    (hl : (v.take 4).all isUpperAlphanum = true)
    (he : ((v.drop 4).take 14).all isUpperAlphanum = true)
    (hc : (v.drop 18).all isAsciiDigit = true)
    (hcc : compute_check_digits (v.take 18) = some ccd) :
    validate v = some (decide (v.drop 18 = ccd)) := by
  simp only [validate, h20, ne_eq, not_true_eq_false, if_false,
    lou_format_ok (length_take4 h20) hl,
    entity_format_ok (length_take14 h20) he,
    cd_format_ok (length_drop18 h20) hc, hcc]

lemma validate_eq_parse (v : List Nat) :
    validate v = (parse v).map resultIsOk := by
  by_cases h20 : v.length = 20
  · cases hl : (v.take 4).all isUpperAlphanum with
    | false => rw [parse_lou_bad h20 hl, validate_lou_bad h20 hl]; rfl
    | true =>
      cases he : ((v.drop 4).take 14).all isUpperAlphanum with
      | false => rw [parse_entity_bad h20 hl he, validate_entity_bad h20 hl he]; rfl
      | true =>
        cases hc : (v.drop 18).all isAsciiDigit with
        | false => rw [parse_cd_bad h20 hl he hc, validate_cd_bad h20 hl he hc]; rfl
        | true =>
          obtain ⟨cd, hcd⟩ :=
            compute_some_of_valid (take18_ne_nil h20) (take18_all hl he)
          rw [validate_checked h20 hl he hc hcd]
          by_cases hm : v.drop 18 = cd
          · rw [parse_ok_of h20 hl he hc (by rw [hm]; exact hcd)]
            simp [hm, resultIsOk]
          · rw [parse_mismatch h20 hl he hc hcd hm]
            simp [hm, resultIsOk]
  · rw [parse_length_ne h20, validate_length_ne h20]; rfl

lemma take18_self {p : List Nat} (h : p.length = 18) : p.take 18 = p := by
  rw [← h, List.take_length]

lemma all_of_parts {p : List Nat} (h18 : p.length = 18)
    (hl : (p.take 4).all isUpperAlphanum = true)
    (he : ((p.drop 4).take 14).all isUpperAlphanum = true) :
    p.all isUpperAlphanum = true := by
  have h := take18_all hl he
  rwa [take18_self h18] at h

lemma ne_nil_of_length18 {p : List Nat} (h : p.length = 18) : p ≠ [] := by
  intro hc
  rw [hc] at h
  simp at h

lemma bfp_length_ne {p : List Nat} (h : p.length ≠ 18) :
    build_from_payload p = some (Except.error (LEIError.InvalidPayloadLength p.length)) := by
  simp [build_from_payload, h]

lemma bfp_lou_bad {p : List Nat} (h18 : p.length = 18)
    (hl : (p.take 4).all isUpperAlphanum = false) :
    build_from_payload p = some (Except.error (LEIError.InvalidLouId (p.take 4))) := by
  have h4 : (p.take 4).length = 4 := by rw [List.length_take]; omega
  simp [build_from_payload, h18, lou_format_err h4 hl]

lemma bfp_entity_bad {p : List Nat} (h18 : p.length = 18)
    (hl : (p.take 4).all isUpperAlphanum = true)
    (he : ((p.drop 4).take 14).all isUpperAlphanum = false) :
    build_from_payload p =
      some (Except.error (LEIError.InvalidEntityId ((p.drop 4).take 14))) := by
  have h4 : (p.take 4).length = 4 := by rw [List.length_take]; omega
  have h14 : ((p.drop 4).take 14).length = 14 := by
    rw [List.length_take, List.length_drop]; omega
  simp [build_from_payload, h18, lou_format_ok h4 hl, entity_format_err h14 he]

lemma bfp_ok {p cd : List Nat} (h18 : p.length = 18)
    (hl : (p.take 4).all isUpperAlphanum = true)
    (he : ((p.drop 4).take 14).all isUpperAlphanum = true)
    (hcd : compute_check_digits p = some cd) :
    build_from_payload p = some (Except.ok ⟨p ++ cd⟩) := by
  have h4 : (p.take 4).length = 4 := by rw [List.length_take]; omega
  have h14 : ((p.drop 4).take 14).length = 14 := by
    rw [List.length_take, List.length_drop]; omega
  simp [build_from_payload, h18, lou_format_ok h4 hl, entity_format_ok h14 he, hcd]

lemma bfp_ok_inv {p : List Nat} {lei : LEI}
    (h : build_from_payload p = some (Except.ok lei)) :
    p.length = 18 ∧ (p.take 4).all isUpperAlphanum = true ∧
    ((p.drop 4).take 14).all isUpperAlphanum = true ∧
    ∃ cd, compute_check_digits p = some cd ∧ lei = ⟨p ++ cd⟩ := by
  by_cases h18 : p.length = 18
  · cases hl : (p.take 4).all isUpperAlphanum with
    | false => rw [bfp_lou_bad h18 hl] at h; exact absurd h (by simp)
    | true =>
      cases he : ((p.drop 4).take 14).all isUpperAlphanum with
      | false => rw [bfp_entity_bad h18 hl he] at h; exact absurd h (by simp)
      | true =>
        obtain ⟨cd, hcd⟩ :=
          compute_some_of_valid (ne_nil_of_length18 h18) (all_of_parts h18 hl he)
        rw [bfp_ok h18 hl he hcd] at h
        have hlei : lei = ⟨p ++ cd⟩ := by
          have := Option.some_inj.mp h
          cases this
          rfl
        exact ⟨h18, rfl, rfl, cd, hcd, hlei⟩
  · rw [bfp_length_ne h18] at h
    exact absurd h (by simp)

lemma bfp_err_inv {p : List Nat} {e : LEIError}
    (h : build_from_payload p = some (Except.error e)) :
    e = LEIError.InvalidPayloadLength p.length ∨
    e = LEIError.InvalidLouId (p.take 4) ∨
    e = LEIError.InvalidEntityId ((p.drop 4).take 14) := by
  by_cases h18 : p.length = 18
  · cases hl : (p.take 4).all isUpperAlphanum with
    | false =>
      rw [bfp_lou_bad h18 hl] at h
      have := Option.some_inj.mp h
      cases this
      exact Or.inr (Or.inl rfl)
    | true =>
      cases he : ((p.drop 4).take 14).all isUpperAlphanum with
      | false =>
        rw [bfp_entity_bad h18 hl he] at h
        have := Option.some_inj.mp h
        cases this
        exact Or.inr (Or.inr rfl)
      | true =>
        obtain ⟨cd, hcd⟩ :=
          compute_some_of_valid (ne_nil_of_length18 h18) (all_of_parts h18 hl he)
        rw [bfp_ok h18 hl he hcd] at h
        exact absurd h (by simp)
  · rw [bfp_length_ne h18] at h
    have := Option.some_inj.mp h
    cases this
    exact Or.inl rfl

lemma bfp_isSome (p : List Nat) : (build_from_payload p).isSome = true := by
  by_cases h18 : p.length = 18
  · cases hl : (p.take 4).all isUpperAlphanum with
    | false => rw [bfp_lou_bad h18 hl]; rfl
    | true =>
      cases he : ((p.drop 4).take 14).all isUpperAlphanum with
      | false => rw [bfp_entity_bad h18 hl he]; rfl
      | true =>
        obtain ⟨cd, hcd⟩ :=
          compute_some_of_valid (ne_nil_of_length18 h18) (all_of_parts h18 hl he)
        rw [bfp_ok h18 hl he hcd]; rfl
  · rw [bfp_length_ne h18]; rfl

lemma bfparts_lou_len {lou entity : List Nat} (h : lou.length ≠ 4) :
    build_from_parts lou entity =
      some (Except.error (LEIError.InvalidLouIdLength lou.length)) := by
  simp [build_from_parts, h]

lemma bfparts_lou_bad {lou entity : List Nat} (h4 : lou.length = 4)
    (hl : lou.all isUpperAlphanum = false) :
    build_from_parts lou entity = some (Except.error (LEIError.InvalidLouId lou)) := by
  simp [build_from_parts, h4, lou_format_err h4 hl]

lemma bfparts_entity_len {lou entity : List Nat} (h4 : lou.length = 4)
    (hl : lou.all isUpperAlphanum = true) (h14 : entity.length ≠ 14) :
    build_from_parts lou entity =
      some (Except.error (LEIError.InvalidEntityIdLength entity.length)) := by
  simp [build_from_parts, h4, lou_format_ok h4 hl, h14]

lemma bfparts_entity_bad {lou entity : List Nat} (h4 : lou.length = 4)
    (hl : lou.all isUpperAlphanum = true) (h14 : entity.length = 14)
    (he : entity.all isUpperAlphanum = false) :
    build_from_parts lou entity =
      some (Except.error (LEIError.InvalidEntityId entity)) := by
  simp [build_from_parts, h4, lou_format_ok h4 hl, h14, entity_format_err h14 he]

lemma bfparts_ok {lou entity cd : List Nat} (h4 : lou.length = 4)
    (hl : lou.all isUpperAlphanum = true) (h14 : entity.length = 14)
    (he : entity.all isUpperAlphanum = true)
    (hcd : compute_check_digits (lou ++ entity) = some cd) :
    build_from_parts lou entity = some (Except.ok ⟨lou ++ entity ++ cd⟩) := by
  simp [build_from_parts, h4, lou_format_ok h4 hl, h14, entity_format_ok h14 he, hcd]

lemma append_all_upper {lou entity : List Nat}
    (hl : lou.all isUpperAlphanum = true) (he : entity.all isUpperAlphanum = true) :
    (lou ++ entity).all isUpperAlphanum = true := by
  rw [List.all_append, hl, he]
  rfl

lemma append_ne_nil_of_length {lou entity : List Nat} (h4 : lou.length = 4) :
    lou ++ entity ≠ [] := by
  intro hc
  rw [List.append_eq_nil] at hc
  rw [hc.1] at h4
  simp at h4

lemma bfparts_ok_inv {lou entity : List Nat} {lei : LEI}
    (h : build_from_parts lou entity = some (Except.ok lei)) :
    lou.length = 4 ∧ lou.all isUpperAlphanum = true ∧
    entity.length = 14 ∧ entity.all isUpperAlphanum = true ∧
    ∃ cd, compute_check_digits (lou ++ entity) = some cd ∧
      lei = ⟨lou ++ entity ++ cd⟩ := by
  by_cases h4 : lou.length = 4
  · cases hl : lou.all isUpperAlphanum with
    | false => rw [bfparts_lou_bad h4 hl] at h; exact absurd h (by simp)
    | true =>
      by_cases h14 : entity.length = 14
      · cases he : entity.all isUpperAlphanum with
        | false => rw [bfparts_entity_bad h4 hl h14 he] at h; exact absurd h (by simp)
        | true =>
          obtain ⟨cd, hcd⟩ :=
            compute_some_of_valid (append_ne_nil_of_length h4) (append_all_upper hl he)
          rw [bfparts_ok h4 hl h14 he hcd] at h
          have hlei : lei = ⟨lou ++ entity ++ cd⟩ := by
            have := Option.some_inj.mp h
            cases this
            rfl
          exact ⟨h4, rfl, h14, rfl, cd, hcd, hlei⟩
      · rw [bfparts_entity_len h4 hl h14] at h; exact absurd h (by simp)
  · rw [bfparts_lou_len h4] at h; exact absurd h (by simp)

lemma bfparts_isSome (lou entity : List Nat) :
    (build_from_parts lou entity).isSome = true := by
  by_cases h4 : lou.length = 4
  · cases hl : lou.all isUpperAlphanum with
    | false => rw [bfparts_lou_bad h4 hl]; rfl
    | true =>
      by_cases h14 : entity.length = 14
      · cases he : entity.all isUpperAlphanum with
        | false => rw [bfparts_entity_bad h4 hl h14 he]; rfl
        | true =>
          obtain ⟨cd, hcd⟩ :=
            compute_some_of_valid (append_ne_nil_of_length h4) (append_all_upper hl he)
          rw [bfparts_ok h4 hl h14 he hcd]; rfl
      · rw [bfparts_entity_len h4 hl h14]; rfl
  · rw [bfparts_lou_len h4]; rfl

lemma all_upper_of_digits {l : List Nat} (h : l.all isAsciiDigit = true) :
    l.all isUpperAlphanum = true := by
  rw [List.all_eq_true] at h ⊢
  intro x hx
  exact isUpperAlphanum_of_digit (h x hx)

lemma wf_parse_value {v : List Nat} (h20 : v.length = 20)
    (hl : (v.take 4).all isUpperAlphanum = true)
    (he : ((v.drop 4).take 14).all isUpperAlphanum = true)
    (hc : (v.drop 18).all isAsciiDigit = true)
    (hcc : compute_check_digits (v.take 18) = some (v.drop 18)) :
    wellFormedLEI ⟨v⟩ := by
  refine ⟨h20, ?_, hc, hcc⟩
  have hd' : (v.drop 18).all isUpperAlphanum = true := all_upper_of_digits hc
  have hall : (v.take 4 ++ ((v.drop 4).take 14 ++ v.drop 18)).all isUpperAlphanum = true := by
    rw [List.all_append, List.all_append, hl, he, hd']
    rfl
  rwa [list_split_parts v] at hall

lemma wf_payload_value {p cd : List Nat} (h18 : p.length = 18)
    (hall : p.all isUpperAlphanum = true)
    (hcd : compute_check_digits p = some cd) :
    wellFormedLEI ⟨p ++ cd⟩ := by
  obtain ⟨hcl, hcall⟩ := compute_some_inv hcd
  have htake : (p ++ cd).take 18 = p := List.take_left' h18
  have hdrop : (p ++ cd).drop 18 = cd := List.drop_left' h18
  refine ⟨?_, ?_, ?_, ?_⟩
  · rw [List.length_append]
    omega
  · rw [List.all_append, hall, all_upper_of_digits hcall]
    rfl
  · rw [hdrop]
    exact hcall
  · rw [htake, hdrop]
    exact hcd

lemma isRustWhitespace_iff {c : Nat} :
    isRustWhitespace c = true ↔
      (c = 9 ∨ c = 10 ∨ c = 11 ∨ c = 12 ∨ c = 13 ∨ c = 32 ∨ c = 0x85 ∨ c = 0xA0 ∨
       c = 0x1680 ∨ (0x2000 ≤ c ∧ c ≤ 0x200A) ∨ c = 0x2028 ∨ c = 0x2029 ∨
       c = 0x202F ∨ c = 0x205F ∨ c = 0x3000) := by
  simp [isRustWhitespace, or_assoc]

lemma ws_upper (c : Nat) :
    isRustWhitespace (toAsciiUpperChar c) = isRustWhitespace c := by
  unfold toAsciiUpperChar
  split
  · rename_i h
    have h1 : isRustWhitespace (c - 32) = false := by
      rw [Bool.eq_false_iff, ne_eq, isRustWhitespace_iff]
      omega
    have h2 : isRustWhitespace c = false := by
      rw [Bool.eq_false_iff, ne_eq, isRustWhitespace_iff]
      omega
    rw [h1, h2]
  · rfl

lemma trim_upper_comm (s : List Nat) :
    trimChars (s.map toAsciiUpperChar) = (trimChars s).map toAsciiUpperChar := by
  have hpf : (isRustWhitespace ∘ toAsciiUpperChar) = isRustWhitespace := funext ws_upper
  unfold trimChars
  rw [List.dropWhile_map, hpf, ← List.map_reverse, List.dropWhile_map, hpf,
    ← List.map_reverse]

lemma utf8Len_pos (c : Nat) : 1 ≤ (utf8EncodeChar c).length := by
  unfold utf8EncodeChar
  split
  · simp
  · split
    · simp
    · split <;> simp

lemma utf8Len_ge2 {c : Nat} (h : 128 ≤ c) : 2 ≤ (utf8EncodeChar c).length := by
  unfold utf8EncodeChar
  split
  · omega
  · split
    · simp
    · split <;> simp

lemma encode_length_ge (s : List Nat) : s.length ≤ (encodeUtf8 s).length := by
  induction s with
  | nil => simp [encodeUtf8]
  | cons c t ih =>
    simp only [encodeUtf8, List.flatMap_cons, List.length_append, List.length_cons]
    have h1 := utf8Len_pos c
    simp only [encodeUtf8] at ih
    omega

lemma encode_length_gt {s : List Nat} {c : Nat} (hc : c ∈ s) (h128 : 128 ≤ c) :
    s.length < (encodeUtf8 s).length := by
  obtain ⟨l1, l2, rfl⟩ := List.append_of_mem hc
  have h1 := encode_length_ge l1
  have h2 := encode_length_ge l2
  have h3 := utf8Len_ge2 h128
  simp only [encodeUtf8, List.flatMap_append, List.flatMap_cons, List.length_append,
    List.length_cons] at h1 h2 ⊢
  omega

/-- C1: Every LEI value produced by any public constructor (`parse`,
`parse_loose`, `build_from_payload`, `build_from_parts`) is an exactly-20-byte
buffer of ASCII digits and uppercase letters whose bytes 18–19 are decimal
digits equal to the check digits computed over bytes 0–17. -/
theorem claim_C1_constructor_invariant :
    (∀ (v : List Nat) (lei : LEI), parse v = some (Except.ok lei) → wellFormedLEI lei) ∧
    (∀ (s : List Nat) (lei : LEI), parse_loose s = some (Except.ok lei) → wellFormedLEI lei) ∧
    (∀ (p : List Nat) (lei : LEI),
      build_from_payload p = some (Except.ok lei) → wellFormedLEI lei) ∧
    (∀ (lou entity : List Nat) (lei : LEI),
      build_from_parts lou entity = some (Except.ok lei) → wellFormedLEI lei) := by
  have hparse : ∀ (v : List Nat) (lei : LEI),
      parse v = some (Except.ok lei) → wellFormedLEI lei := by
    intro v lei h
    obtain ⟨h20, hl, he, hc, hcc, rfl⟩ := parse_ok_inv h
    exact wf_parse_value h20 hl he hc hcc
  refine ⟨hparse, ?_, ?_, ?_⟩
  · intro s lei h
    exact hparse _ _ h
  · intro p lei h
    obtain ⟨h18, hl, he, cd, hcd, rfl⟩ := bfp_ok_inv h
    exact wf_payload_value h18 (all_of_parts h18 hl he) hcd
  · intro lou entity lei h
    obtain ⟨h4, hl, h14, he, cd, hcd, rfl⟩ := bfparts_ok_inv h
    have h18 : (lou ++ entity).length = 18 := by
      rw [List.length_append]
      omega
    exact wf_payload_value h18 (append_all_upper hl he) hcd

/-- Witness for C1 at the GLEIF sample `635400B4JJBON4TCHF02`. -/
theorem claim_C1_witness :
    parse sampleLEI = some (Except.ok ⟨sampleLEI⟩) ∧ wellFormedLEI ⟨sampleLEI⟩ :=
  ⟨by decide, claim_C1_constructor_invariant.1 sampleLEI ⟨sampleLEI⟩ (by decide)⟩

/-- C2: if `parse` succeeds on an input, rendering the resulting value back
to a string yields exactly that input. -/
theorem claim_C2_roundtrip :
    ∀ (v : List Nat) (lei : LEI), parse v = some (Except.ok lei) →
      lei.to_string = v := by
  intro v lei h
  obtain ⟨-, -, -, -, -, rfl⟩ := parse_ok_inv h
  rfl

/-- Witness for C2 at the GLEIF sample `635400B4JJBON4TCHF02`. -/
theorem claim_C2_witness :
    parse sampleLEI = some (Except.ok ⟨sampleLEI⟩) ∧
    LEI.to_string ⟨sampleLEI⟩ = sampleLEI :=
  ⟨by decide, claim_C2_roundtrip sampleLEI ⟨sampleLEI⟩ (by decide)⟩

/-- C3: the boolean checker agrees with the strict parser on every input:
`validate` returns exactly `is_ok` of `parse`, and in particular returns
`true` exactly when `parse` succeeds. -/
theorem claim_C3_validate_agrees :
    ∀ v : List Nat, validate v = (parse v).map resultIsOk ∧
      (validate v = some true ↔ ∃ lei, parse v = some (Except.ok lei)) := by
  intro v
  refine ⟨validate_eq_parse v, ?_⟩
  rw [validate_eq_parse v]
  cases hp : parse v with
  | none => simp
  | some r =>
    cases r with
    | ok lei => simp [resultIsOk]
    | error e => simp [resultIsOk]

/-- C4: `parse` applies its checks in a fixed order — length, LOU ID format,
Entity ID format, Check Digits format, then check-digit comparison — and the
first failing check alone determines the single returned error. -/
theorem claim_C4_error_order :
    ∀ v : List Nat,
      (v.length ≠ 20 →
        parse v = some (Except.error (LEIError.InvalidLength v.length))) ∧
      (v.length = 20 → (v.take 4).all isUpperAlphanum = false →
        parse v = some (Except.error (LEIError.InvalidLouId (v.take 4)))) ∧
      (v.length = 20 → (v.take 4).all isUpperAlphanum = true →
        ((v.drop 4).take 14).all isUpperAlphanum = false →
        parse v = some (Except.error (LEIError.InvalidEntityId ((v.drop 4).take 14)))) ∧
      (v.length = 20 → (v.take 4).all isUpperAlphanum = true →
        ((v.drop 4).take 14).all isUpperAlphanum = true →
        (v.drop 18).all isAsciiDigit = false →
        parse v = some (Except.error (LEIError.InvalidCheckDigits (v.drop 18)))) ∧
      (∀ ccd, v.length = 20 → (v.take 4).all isUpperAlphanum = true →
        ((v.drop 4).take 14).all isUpperAlphanum = true →
        (v.drop 18).all isAsciiDigit = true →
        compute_check_digits (v.take 18) = some ccd → v.drop 18 ≠ ccd →
        parse v = some (Except.error (LEIError.IncorrectCheckDigits (v.drop 18) ccd))) := by
  intro v
  exact ⟨fun h => parse_length_ne h,
    fun h20 hl => parse_lou_bad h20 hl,
    fun h20 hl he => parse_entity_bad h20 hl he,
    fun h20 hl he hc => parse_cd_bad h20 hl he hc,
    fun ccd h20 hl he hc hcc hne => parse_mismatch h20 hl he hc hcc hne⟩

/-- Witness for C4: `TOOSHORT` reports its length, and the spec example
`635400B4JJBON4TCHF01` reports the supplied and expected check digits. -/
theorem claim_C4_witness :
    parse sampleShort = some (Except.error (LEIError.InvalidLength sampleShort.length)) ∧
    parse sampleBadCd =
      some (Except.error (LEIError.IncorrectCheckDigits (sampleBadCd.drop 18) [48, 50])) :=
  ⟨(claim_C4_error_order sampleShort).1 (by decide),
   (claim_C4_error_order sampleBadCd).2.2.2.2 [48, 50] (by decide) (by decide)
     (by decide) (by decide) (by decide) (by decide)⟩

/-- C5: `parse_loose` equals `parse` applied to the ASCII-uppercased,
whitespace-trimmed input (in either composition order, since case folding
and trimming commute), with no other normalization; in particular the
spec's concrete example holds. -/
theorem claim_C5_loose_normalization :
    (∀ s : List Nat,
      parse_loose s = parse (encodeUtf8 (trimChars (s.map toAsciiUpperChar)))) ∧
    (∀ s : List Nat,
      parse_loose s = parse (encodeUtf8 ((trimChars s).map toAsciiUpperChar))) ∧
    parse_loose sampleLoose = parse sampleStrict := by
  refine ⟨fun s => rfl, ?_, by decide⟩
  intro s
  unfold parse_loose
  rw [trim_upper_comm]

/-- C6: on an all-alphanumeric input the digit expansion emits, in input
order, exactly one pass-through character per digit byte and exactly two
characters per letter byte — the tens digit then the units digit of the
letter's value in 10–35. -/
theorem claim_C6_digit_expansion :
    ∀ s : List Nat, s.all isUpperAlphanum = true →
      expandDigits s = some (s.flatMap expandByteSpec) ∧
      (∀ b : Nat, isAsciiDigit b = true → expandByteSpec b = [b]) ∧
      (∀ b : Nat, isAsciiUppercaseLetter b = true →
        10 ≤ b - 65 + 10 ∧ b - 65 + 10 ≤ 35 ∧
        expandByteSpec b = [(b - 65 + 10) / 10 + 48, (b - 65 + 10) % 10 + 48]) := by
  intro s hs
  refine ⟨expandDigits_eq hs, ?_, ?_⟩
  · intro b hb
    simp [expandByteSpec, hb]
  · intro b hb
    rw [isAsciiUpperLetter_iff] at hb
    have hd : isAsciiDigit b = false := by
      rw [isAsciiDigit_false_iff]
      omega
    refine ⟨by omega, by omega, ?_⟩
    simp [expandByteSpec, hd]

/-- Witness for C6 at the payload `635400B4JJBON4TCHF`. -/
theorem claim_C6_witness :
    samplePayload.all isUpperAlphanum = true ∧
    expandDigits samplePayload = some (samplePayload.flatMap expandByteSpec) :=
  ⟨by decide, (claim_C6_digit_expansion samplePayload (by decide)).1⟩

/-- C7: `build_from_payload` only ever fails with `InvalidPayloadLength`,
`InvalidLouId` or `InvalidEntityId` — never `IncorrectCheckDigits` — and on
success the assembled value's check digits are self-consistent with its
payload. -/
theorem claim_C7_payload_errors :
    ∀ p : List Nat,
      (∀ e, build_from_payload p = some (Except.error e) →
        e = LEIError.InvalidPayloadLength p.length ∨
        e = LEIError.InvalidLouId (p.take 4) ∨
        e = LEIError.InvalidEntityId ((p.drop 4).take 14)) ∧
      (∀ was expected, build_from_payload p ≠
        some (Except.error (LEIError.IncorrectCheckDigits was expected))) ∧
      (∀ lei, build_from_payload p = some (Except.ok lei) →
        compute_check_digits (lei.bytes.take 18) = some (lei.bytes.drop 18)) := by
  intro p
  refine ⟨fun e h => bfp_err_inv h, ?_, ?_⟩
  · intro was expected h
    rcases bfp_err_inv h with h1 | h1 | h1 <;> exact absurd h1 (by simp)
  · intro lei h
    obtain ⟨h18, hl, he, cd, hcd, rfl⟩ := bfp_ok_inv h
    have hwf := wf_payload_value h18 (all_of_parts h18 hl he) hcd
    exact hwf.2.2.2

/-- Witness for C7: a short payload errors with its length, and the valid
payload `635400B4JJBON4TCHF` builds a self-consistent value. -/
theorem claim_C7_witness :
    (LEIError.InvalidPayloadLength sampleShort.length =
        LEIError.InvalidPayloadLength sampleShort.length ∨
      LEIError.InvalidPayloadLength sampleShort.length =
        LEIError.InvalidLouId (sampleShort.take 4) ∨
      LEIError.InvalidPayloadLength sampleShort.length =
        LEIError.InvalidEntityId ((sampleShort.drop 4).take 14)) ∧
    compute_check_digits ((⟨samplePayload ++ [48, 50]⟩ : LEI).bytes.take 18) =
      some ((⟨samplePayload ++ [48, 50]⟩ : LEI).bytes.drop 18) :=
  ⟨(claim_C7_payload_errors sampleShort).1 _ (by decide),
   (claim_C7_payload_errors samplePayload).2.2 ⟨samplePayload ++ [48, 50]⟩ (by decide)⟩

/-- C8: for format-valid 4-byte `lou` and 14-byte `entity`,
`build_from_parts lou entity` and `parse (lou ++ entity ++ cd)` — with `cd`
the check digits computed over `lou ++ entity` — produce equal results. -/
theorem claim_C8_parts_parse_agree :
    ∀ lou entity : List Nat,
      lou.length = 4 → lou.all isUpperAlphanum = true →
      entity.length = 14 → entity.all isUpperAlphanum = true →
      ∃ cd, compute_check_digits (lou ++ entity) = some cd ∧
        build_from_parts lou entity = parse (lou ++ entity ++ cd) ∧
        build_from_parts lou entity = some (Except.ok ⟨lou ++ entity ++ cd⟩) := by
  intro lou entity h4 hl h14 he
  obtain ⟨cd, hcd⟩ :=
    compute_some_of_valid (append_ne_nil_of_length h4) (append_all_upper hl he)
  obtain ⟨hcl, hcall⟩ := compute_some_inv hcd
  have h18 : (lou ++ entity).length = 18 := by
    rw [List.length_append]
    omega
  have h20 : (lou ++ entity ++ cd).length = 20 := by
    rw [List.length_append, List.length_append]
    omega
  have htake18 : (lou ++ entity ++ cd).take 18 = lou ++ entity := List.take_left' h18
  have hdrop18 : (lou ++ entity ++ cd).drop 18 = cd := List.drop_left' h18
  have htake4 : (lou ++ entity ++ cd).take 4 = lou := by
    rw [List.append_assoc]
    exact List.take_left' h4
  have hdrop4 : (lou ++ entity ++ cd).drop 4 = entity ++ cd := by
    rw [List.append_assoc]
    exact List.drop_left' h4
  have htake14 : ((lou ++ entity ++ cd).drop 4).take 14 = entity := by
    rw [hdrop4]
    exact List.take_left' h14
  have hparse : parse (lou ++ entity ++ cd) = some (Except.ok ⟨lou ++ entity ++ cd⟩) :=
    parse_ok_of h20 (by rw [htake4]; exact hl) (by rw [htake14]; exact he)
      (by rw [hdrop18]; exact hcall) (by rw [htake18, hdrop18]; exact hcd)
  have hbuild := bfparts_ok h4 hl h14 he hcd
  exact ⟨cd, hcd, by rw [hparse, hbuild], hbuild⟩

/-- Witness for C8 at `6354` / `00B4JJBON4TCHF`. -/
theorem claim_C8_witness :
    sampleLou.length = 4 ∧ sampleLou.all isUpperAlphanum = true ∧
    sampleEntity.length = 14 ∧ sampleEntity.all isUpperAlphanum = true ∧
    ∃ cd, compute_check_digits (sampleLou ++ sampleEntity) = some cd ∧
      build_from_parts sampleLou sampleEntity =
        parse (sampleLou ++ sampleEntity ++ cd) ∧
      build_from_parts sampleLou sampleEntity =
        some (Except.ok ⟨sampleLou ++ sampleEntity ++ cd⟩) :=
  ⟨by decide, by decide, by decide, by decide,
   claim_C8_parts_parse_agree sampleLou sampleEntity (by decide) (by decide)
     (by decide) (by decide)⟩

/-- C9: every public entry point is total — on all inputs the internal
panic branches (bad byte in the digit expansion, checksum engine refusing a
validated stream) are unreachable, so each operation returns a value or a
typed error (`some` in the model, never the `none` that models a panic). -/
theorem claim_C9_totality :
    ∀ (v p lou entity : List Nat) (s : List Nat),
      (parse v).isSome = true ∧ (parse_loose s).isSome = true ∧
      (build_from_payload p).isSome = true ∧
      (build_from_parts lou entity).isSome = true ∧
      (validate v).isSome = true := by
  intro v p lou entity s
  refine ⟨parse_isSome v, parse_isSome _, bfp_isSome p, bfparts_isSome lou entity, ?_⟩
  rw [validate_eq_parse v]
  cases hp : parse v with
  | none => exact absurd hp (by have := parse_isSome v; rw [hp] at this; simp at this)
  | some r => rfl

/-- C10: `parse` and `validate` measure length in UTF-8 bytes: a 20-character
input containing a non-ASCII character encodes to more than 20 bytes, so
`parse` reports `InvalidLength` with the byte count (never a field-format
error) and `validate` returns false. -/
theorem claim_C10_utf8_length :
    ∀ cs : List Nat, cs.length = 20 → (∃ c ∈ cs, 128 ≤ c) →
      20 < (encodeUtf8 cs).length ∧
      parse (encodeUtf8 cs) =
        some (Except.error (LEIError.InvalidLength (encodeUtf8 cs).length)) ∧
      validate (encodeUtf8 cs) = some false := by
  intro cs h20 hex
  obtain ⟨c, hc, h128⟩ := hex
  have hgt : 20 < (encodeUtf8 cs).length := by
    have := encode_length_gt hc h128
    omega
  exact ⟨hgt, parse_length_ne (by omega), validate_length_ne (by omega)⟩

/-- Witness for C10 at 19 `A`s followed by `é` (U+00E9). -/
theorem claim_C10_witness :
    sampleUnicode.length = 20 ∧ (∃ c ∈ sampleUnicode, 128 ≤ c) ∧
    20 < (encodeUtf8 sampleUnicode).length ∧
    parse (encodeUtf8 sampleUnicode) =
      some (Except.error (LEIError.InvalidLength (encodeUtf8 sampleUnicode).length)) ∧
    validate (encodeUtf8 sampleUnicode) = some false :=
  ⟨by decide, ⟨233, by decide, by decide⟩,
   claim_C10_utf8_length sampleUnicode (by decide) ⟨233, by decide, by decide⟩⟩

end Lei
